import Mathlib

/-!
# Verification of `src/New_2/batch_consulta.py` (CNPJ batch lookup tool)

Shallow embedding of the algorithmic core of the script: identifier
cleaning and checksum validation, branch-to-headquarters normalization,
tax-regime history selection, response-to-row mapping, the adaptive rate
limiter, the retrying fetch loop, the dispatch plan with deduplication,
and the batch fingerprint (MD5 of the newline-joined cleaned list).

Conventions of the embedding:
* Python strings are `String` (lists of characters); slices `s[a:b]`
  become `(s.data.drop a).take (b - a)`.
* `int(c)` on a single character succeeds exactly on ASCII digits; a
  Python exception is modelled by `Option` (`none` = the call raised).
* Network, clock and filesystem effects are passed in as explicit
  oracle parameters (current year, request outcome per attempt,
  IBGE municipal-code lookup, timestamp string).
* Floats of the adaptive limiter are modelled as rationals.
-/

/-- Digit value of a character, as Python `int(c)`: `some` exactly on
ASCII `'0'`-`'9'`, `none` models the `ValueError` raised otherwise. -/
def digitVal (c : Char) : Option Nat :=
  if c.isDigit then some (c.toNat - 48) else none

/-- Total digit value (used only under a proof that `c.isDigit`). -/
def digitValT (c : Char) : Nat := c.toNat - 48

/-- Parse a list of characters as digits, propagating failure. -/
def parseDigits : List Char → Option (List Nat)
  | [] => some []
  | c :: cs =>
    match digitVal c, parseDigits cs with
    | some d, some ds => some (d :: ds)
    | _, _ => none

/-- The character for a digit value below 10. -/
def digitChar (n : Nat) : Char := Char.ofNat (48 + n)

/-- `limpar_cnpj` (line 122): strip every character that is not an ASCII
digit (`re.sub(r'[^0-9]', '', cnpj or "")`). -/
def limpar_cnpj (s : String) : String := ⟨s.data.filter Char.isDigit⟩

/-- First checksum pass weights (`pesos_12`, line 131). -/
def pesos_12 : List Nat := [5, 4, 3, 2, 9, 8, 7, 6, 5, 4, 3, 2]

/-- Second checksum pass weights (`pesos_13`, line 132). -/
def pesos_13 : List Nat := [6, 5, 4, 3, 2, 9, 8, 7, 6, 5, 4, 3, 2]

/-- One weighted-sum-mod-11 pass (`dv`, lines 133-136) on already parsed
digit values: sum of `digit * weight`, remainder mod 11, below 2 gives
0, otherwise `11 - r`. -/
def dvNat (ds pesos : List Nat) : Nat :=
  let s := ((ds.zip pesos).foldl (fun a p => a + p.1 * p.2) 0)
  let r := s % 11
  if r < 2 then 0 else 11 - r

/-- `calcular_digitos_verificadores_cnpj` (lines 130-139) on the
character list of the 12-digit base: parse the first twelve characters
(Python raises on a non-digit, hence `Option`), run the first pass, run
the second pass on the base extended with the first check digit, and
return the two check-digit characters. -/
def calcularDV (base : List Char) : Option (List Char) :=
  (parseDigits (base.take 12)).map (fun ds =>
    let d13 := dvNat ds pesos_12
    let d14 := dvNat (ds ++ [d13]) pesos_13
    [digitChar d13, digitChar d14])

/-- `calcular_digitos_verificadores_cnpj` on strings. -/
def calcular_digitos_verificadores_cnpj (base : String) : Option String :=
  (calcularDV base.data).map (fun l => ⟨l⟩)

/-- `len(set(s)) == 1` on a character list: all characters equal (and
the list nonempty). -/
def allSame : List Char → Bool
  | [] => false
  | c :: cs => cs.all (fun x => x == c)

/-- `cnpj_is_valid` (lines 125-128) on the character list: `False` when
empty, not of length 14, or all-identical; otherwise compare the last
two characters with the computed check digits (the computation can
raise, hence `Option`). -/
def cnpjValidChars (l : List Char) : Option Bool :=
  if l.isEmpty ∨ l.length ≠ 14 ∨ allSame l then some false
  else (calcularDV (l.take 12)).map (fun dvs => l.drop 12 == dvs)

/-- `cnpj_is_valid` on strings. -/
def cnpj_is_valid (s : String) : Option Bool := cnpjValidChars s.data

/-- `to_matriz_if_filial` (lines 141-149) on the character list: strings
whose length is not 14 pass through; if positions 9-12 (`s[8:12]`) are
not `"0001"`, rebuild from the 8-digit root plus `"0001"` plus freshly
computed check digits (which can raise on non-digit roots); otherwise
unchanged. -/
def toMatrizChars (l : List Char) : Option (List Char) :=
  if l.length ≠ 14 then some l
  else if (l.drop 8).take 4 ≠ ['0', '0', '0', '1'] then
    let base12 := l.take 8 ++ ['0', '0', '0', '1']
    (calcularDV base12).map (fun dvs => base12 ++ dvs)
  else some l

/-- `to_matriz_if_filial` on strings. -/
def to_matriz_if_filial (s : String) : Option String :=
  (toMatrizChars s.data).map (fun l => ⟨l⟩)

/-- One entry of the registry's `regime_tributario` history list, when
it is a dict: `ano` (`none` = key absent or `None`) and
`forma_de_tributacao` (`none` = key absent or `None`). -/
structure RegimeEntry where
  ano : Option Int
  forma : Option String
deriving DecidableEq

/-- The value passed for a regime-history list: `none` models a value
that is not a Python list; inside, `none` models a non-dict element. -/
abbrev RegimeList := Option (List (Option RegimeEntry))

/-- Lookup in the dict `regimes_por_ano` (line 154): the dict maps
`r.get('ano')` to `r.get('forma_de_tributacao')` with later entries
overwriting earlier ones, so a key `y` is present iff some dict element
has `ano = y`, and its value comes from the last such element. -/
def regimesPorAno (dicts : List RegimeEntry) (y : Int) : Option (Option String) :=
  (dicts.reverse.find? (fun r => r.ano == some y)).map (fun r => r.forma)

/-- Python truthiness of `regimes_por_ano[y]` (line 157): a string that
is not `None` and not empty. -/
def formaTruthy : Option String → Bool
  | none => false
  | some s => !(s == "")

/-- Decimal digit characters of a natural number (`fuel` bounds the
recursion; instantiated with `n + 1`, always sufficient). -/
def natDigitsStr : Nat → Nat → List Char
  | 0, _ => []
  | fuel + 1, n =>
    if n < 10 then [digitChar n]
    else natDigitsStr fuel (n / 10) ++ [digitChar (n % 10)]

/-- Decimal rendering of a natural number, as Python `str`. -/
def natToStr (n : Nat) : String := ⟨natDigitsStr (n + 1) n⟩

/-- Decimal rendering of an integer, as Python `str`. -/
def intToStr : Int → String
  | .ofNat n => natToStr n
  | .negSucc n => "-" ++ natToStr (n + 1)

/-- The backward scan of lines 156-158 over a list of candidate years:
return the first year whose dict entry is present and truthy. -/
def scanYears (dicts : List RegimeEntry) : List Int → Option (String × String)
  | [] => none
  | y :: ys =>
    match regimesPorAno dicts y with
    | some (some s) => if s ≠ "" then some (s, intToStr y) else scanYears dicts ys
    | _ => scanYears dicts ys

/-- Python `max(..., key=lambda x: x['ano'], default=None)` over the
dict entries whose `ano` is present (lines 159-162): scan left to
right, replacing the current best only on a strictly larger key, so the
first of several maximal entries wins. -/
def latestRegime (dicts : List RegimeEntry) : Option RegimeEntry :=
  (dicts.filter (fun r => r.ano.isSome)).foldl
    (fun best r =>
      match best with
      | none => some r
      | some b => if r.ano.getD 0 > b.ano.getD 0 then some r else some b)
    none

/-- `get_regime_tributario` (lines 151-165).  The ambient
`datetime.datetime.now().year` (line 155) is passed in as `cy`.
Returns `("N/A", "N/A")` for a non-list or empty history; otherwise
scans the six years `cy, cy-1, …, cy-5` for a present, truthy entry;
otherwise falls back to the entry with the maximum year. -/
def get_regime_tributario (cy : Int) (regimes_list : RegimeList) : String × String :=
  match regimes_list with
  | none => ("N/A", "N/A")
  | some l =>
    if l.isEmpty then ("N/A", "N/A")
    else
      let dicts := l.filterMap id
      match scanYears dicts ((List.range 6).map (fun i => cy - (i : Int))) with
      | some p => p
      | none =>
        match latestRegime dicts with
        | some r => (r.forma.getD "N/A", (r.ano.map intToStr).getD "N/A")
        | none => ("N/A", "N/A")

/-- First element of the secondary-CNAE list, when it is a dict:
`codigo` and `descricao` under the same `Option` conventions. -/
structure SecCnae where
  codigo : Option Nat
  descricao : Option String
deriving DecidableEq

/-- The enrichment payload: exactly the fields of the BrasilAPI response
that `montar_row` and its helpers read.  `has_cnpj` models
`"cnpj" in api_data` (line 375); string fields are `none` when the key
is absent (Python `.get` default); `cnaes_secundarios` is `none` when
the value is not a list (or `None`); `opcao_pelo_simples` and
`opcao_pelo_mei` are the two boolean enrollment flags. -/
structure ApiData where
  has_cnpj : Bool
  razao_social : Option String
  uf : Option String
  municipio : Option String
  logradouro : Option String
  numero : Option String
  complemento : Option String
  bairro : Option String
  regime_tributario : RegimeList
  opcao_pelo_simples : Option Bool
  opcao_pelo_mei : Option Bool
  cnae_fiscal : Option Nat
  cnae_fiscal_descricao : Option String
  cnaes_secundarios : Option (List (Option SecCnae))
  municipio_ibge : Option String
deriving DecidableEq

/-- Python truthiness of an optional integer code (`0` is falsy). -/
def natTruthy : Option Nat → Bool
  | none => false
  | some n => !(n == 0)

/-- Python truthiness of an optional string (empty is falsy). -/
def strTruthy : Option String → Bool
  | none => false
  | some s => !(s == "")

/-- `extrair_cnaes` (lines 167-185): format the primary CNAE as
`"<code> - <description>"` when both are truthy, the bare code when only
the code is, else `"N/A"`; same for the first secondary entry, with
`None`/missing list collapsing to the empty list (`or []`, line 176)
and a `None` first element collapsing to an empty dict (line 179). -/
def extrair_cnaes (api : ApiData) : String × String :=
  let cnae_principal :=
    if natTruthy api.cnae_fiscal ∧ strTruthy api.cnae_fiscal_descricao then
      toString (api.cnae_fiscal.getD 0) ++ " - " ++ api.cnae_fiscal_descricao.getD ""
    else if natTruthy api.cnae_fiscal then toString (api.cnae_fiscal.getD 0)
    else "N/A"
  let sec_list := api.cnaes_secundarios.getD []
  let cnae_sec :=
    match sec_list with
    | [] => "N/A"
    | s0? :: _ =>
      let s0 := s0?.getD ⟨none, none⟩
      if natTruthy s0.codigo ∧ strTruthy s0.descricao then
        toString (s0.codigo.getD 0) ++ " - " ++ s0.descricao.getD ""
      else if natTruthy s0.codigo then toString (s0.codigo.getD 0)
      else "N/A"
  (cnae_principal, cnae_sec)

/-- One output row, the fields of `CSV_COLS` (lines 82-88) in order. -/
structure Row where
  cnpj_original : String
  cnpj_limpo : String
  razao_social : String
  uf : String
  municipio : String
  endereco : String
  regime_tributario : String
  ano_regime_tributario : String
  simples_nacional : String
  mei : String
  cnae_principal : String
  cnae_secundario : String
  codigo_ibge_municipio : String
  timestamp : String
deriving DecidableEq

/-- Python `str.strip()` on a character list: drop whitespace from both
ends. -/
def stripChars (l : List Char) : List Char :=
  ((l.dropWhile Char.isWhitespace).reverse.dropWhile Char.isWhitespace).reverse

/-- Python `str.strip()`. -/
def pyStrip (s : String) : String := ⟨stripChars s.data⟩

/-- Address assembly (lines 379-383): space-join the stripped truthy
parts of street, number, complement, district, strip the result, and
fall back to `"N/A"` when empty. -/
def montarEndereco (api : ApiData) : String :=
  let parts := ([api.logradouro, api.numero, api.complemento, api.bairro].filter
      strTruthy).map (fun o => pyStrip (o.getD ""))
  let j := pyStrip (String.intercalate " " parts)
  if j = "" then "N/A" else j

/-- Rendering of one boolean enrollment flag (lines 401-402):
`"SIM"` for `True`, `"NÃO"` for `False`, `"N/A"` for `None`/absent. -/
def renderFlag : Option Bool → String
  | some true => "SIM"
  | some false => "NÃO"
  | none => "N/A"

/-- `montar_row` (lines 372-425).  Oracles passed explicitly: `cy` is
the current calendar year used by `get_regime_tributario`, `ibge` is
`get_ibge_code_by_uf_city` (a network lookup, lines 299-318), and `ts`
is the formatted timestamp of line 374. -/
def montar_row (original_cnpj_str cnpj_limpo : String) (api_data : Option ApiData)
    (err_msg : Option String) (cy : Int) (ibge : String → String → String)
    (ts : String) : Row :=
  match api_data with
  | some api =>
    if api.has_cnpj then
      let fa := get_regime_tributario cy api.regime_tributario
      let cn := extrair_cnaes api
      let endereco := montarEndereco api
      let municipio := api.municipio.getD "N/A"
      let uf := api.uf.getD "N/A"
      let ibge_val :=
        match api.municipio_ibge with
        | none => ibge uf municipio
        | some s => if s = "" ∨ s = "0" then ibge uf municipio else s
      { cnpj_original := original_cnpj_str
        cnpj_limpo := cnpj_limpo
        razao_social := api.razao_social.getD "N/A"
        uf := uf
        municipio := municipio
        endereco := endereco
        regime_tributario := fa.1
        ano_regime_tributario := fa.2
        simples_nacional := renderFlag api.opcao_pelo_simples
        mei := renderFlag api.opcao_pelo_mei
        cnae_principal := cn.1
        cnae_secundario := cn.2
        codigo_ibge_municipio := if ibge_val = "" then "N/A" else ibge_val
        timestamp := ts }
    else
      { cnpj_original := original_cnpj_str
        cnpj_limpo := cnpj_limpo
        razao_social := err_msg.getD "Falha desconhecida"
        uf := "N/A", municipio := "N/A", endereco := "N/A"
        regime_tributario := "N/A", ano_regime_tributario := "N/A"
        simples_nacional := "N/A", mei := "N/A"
        cnae_principal := "N/A", cnae_secundario := "N/A"
        codigo_ibge_municipio := "N/A", timestamp := ts }
  | none =>
    { cnpj_original := original_cnpj_str
      cnpj_limpo := cnpj_limpo
      razao_social := err_msg.getD "Falha desconhecida"
      uf := "N/A", municipio := "N/A", endereco := "N/A"
      regime_tributario := "N/A", ano_regime_tributario := "N/A"
      simples_nacional := "N/A", mei := "N/A"
      cnae_principal := "N/A", cnae_secundario := "N/A"
      codigo_ibge_municipio := "N/A", timestamp := ts }

/-- Result of `process_one_cnpj`: the produced row and whether a network
request (`request_cnpj_with_retry`) was performed. -/
structure ProcResult where
  row : Row
  network : Bool
deriving DecidableEq

/-- `process_one_cnpj` (lines 427-443).  Oracles: `cache` is the global
thread-safe cache keyed by query identifier (`cache_get`), `net` gives
the `(data, err)` pair `request_cnpj_with_retry` would return for a
query, `cy`/`ibge`/`ts` as in `montar_row`.  `none` models a Python
exception escaping the function. -/
def process_one_cnpj (original_cnpj_str : String) (force_matriz : Bool)
    (cache : String → Option Row)
    (net : String → Option ApiData × Option String)
    (cy : Int) (ibge : String → String → String) (ts : String) :
    Option ProcResult :=
  match cnpj_is_valid (limpar_cnpj original_cnpj_str) with
  | none => none
  | some valid =>
    if !valid then
      some ⟨montar_row original_cnpj_str (limpar_cnpj original_cnpj_str) none
              (some "CNPJ inválido (DV)") cy ibge ts, false⟩
    else
      match (if force_matriz then to_matriz_if_filial (limpar_cnpj original_cnpj_str)
             else some (limpar_cnpj original_cnpj_str)) with
      | none => none
      | some query_key =>
        match cache query_key with
        | some cached =>
          some ⟨{ cached with
                  cnpj_original := original_cnpj_str
                  cnpj_limpo := limpar_cnpj original_cnpj_str }, false⟩
        | none =>
          some ⟨montar_row original_cnpj_str (limpar_cnpj original_cnpj_str)
                  (net query_key).1 (net query_key).2 cy ibge ts, true⟩

/-- `START_INTERVAL` (line 62). -/
def START_INTERVAL : ℚ := 1

/-- `MIN_INTERVAL_FLOOR` (line 65), `0.75`. -/
def MIN_INTERVAL_FLOOR : ℚ := 3 / 4

/-- `MIN_INTERVAL_CEIL` (line 66), `5.0`. -/
def MIN_INTERVAL_CEIL : ℚ := 5

/-- `ADAPT_SUCC_WINDOW` (line 67). -/
def ADAPT_SUCC_WINDOW : Nat := 18

/-- `ADAPT_FAIL_BACKOFF` (line 68), `2.0`. -/
def ADAPT_FAIL_BACKOFF : ℚ := 2

/-- The mutable state of `AdaptiveLimiter` (lines 260-283) that
`penalize`/`reward` touch; the float interval is modelled as a
rational and `last_request_ts` (only used by `wait_turn`) is omitted. -/
structure AdaptiveLimiter where
  min_interval : ℚ
  successes_since_last_adjust : Nat
deriving DecidableEq

/-- `AdaptiveLimiter.penalize` (lines 274-277): double the interval,
capped at the ceiling, and reset the success counter. -/
def AdaptiveLimiter.penalize (st : AdaptiveLimiter) : AdaptiveLimiter :=
  { min_interval := min (st.min_interval * ADAPT_FAIL_BACKOFF) MIN_INTERVAL_CEIL
    successes_since_last_adjust := 0 }

/-- `AdaptiveLimiter.reward` (lines 278-283): bump the success counter;
at the window, shrink the interval by `0.85` bounded below by the floor
and reset the counter. -/
def AdaptiveLimiter.reward (st : AdaptiveLimiter) : AdaptiveLimiter :=
  let n := st.successes_since_last_adjust + 1
  if n ≥ ADAPT_SUCC_WINDOW then
    { min_interval := max (st.min_interval * (85 / 100)) MIN_INTERVAL_FLOOR
      successes_since_last_adjust := 0 }
  else
    { min_interval := st.min_interval, successes_since_last_adjust := n }

/-- `TOTAL_RETRIES` (line 71). -/
def TOTAL_RETRIES : Nat := 3

/-- `RETRYABLE_STATUS` (line 323). -/
def RETRYABLE_STATUS : List Nat := [429, 500, 502, 503, 504]

/-- What one HTTP attempt inside `request_cnpj_with_retry` can observe:
a response (status code, parsed JSON body — `none` models a body that
fails to parse — and the error message the `HTTPError` handler of lines
357-361 would extract from it), a timeout, a connection failure, or any
other exception. -/
inductive NetOutcome where
  | resp (status : Nat) (body : Option ApiData) (errMsg : String)
  | timeout
  | connError
  | exc (msg : String)
deriving DecidableEq

/-- An attempt outcome that sends the loop of lines 332-355 into the
penalize-sleep-retry path: a retryable status, a timeout, or a
connection error. -/
def retryableOutcome : NetOutcome → Bool
  | .resp s _ _ => s ∈ RETRYABLE_STATUS
  | .timeout => true
  | .connError => true
  | .exc _ => false

/-- The `last_err` description a retryable outcome leaves behind
(lines 346, 353, 355). -/
def retryErrDesc : NetOutcome → String
  | .resp s _ _ => "HTTP " ++ toString s
  | .timeout => "Timeout"
  | .connError => "ConnectionError"
  | .exc m => "Erro Inesperado: " ++ m

/-- Observable result of `request_cnpj_with_retry`: the returned
`(data, err)` pair plus instrumentation - how many times `penalize` and
`reward` were invoked and how many attempts were made. -/
structure RetryResult where
  data : Option ApiData
  err : Option String
  penalizes : Nat
  rewards : Nat
  attempts : Nat
deriving DecidableEq

/-- `last_err or "Falha desconhecida"` (line 367): Python `or` replaces
`None` and the empty string. -/
def lastErrOr (lastErr : Option String) : String :=
  match lastErr with
  | none => "Falha desconhecida"
  | some s => if s = "" then "Falha desconhecida" else s

/-- The attempt loop of `request_cnpj_with_retry` (lines 332-367).
`net att` is the outcome of attempt number `att`; `fuel` counts the
remaining iterations of `for attempt in range(1, TOTAL_RETRIES + 1)`;
`lastErr` and `pen` accumulate `last_err` and the penalize count.
Per the source: a retryable status or a timeout/connection error
penalizes, records `last_err` and retries; a non-retryable HTTP error
status (`raise_for_status`, ≥ 400) returns immediately without
penalizing; a body that fails to parse hits the generic handler and
returns immediately; success rewards and returns the data. -/
def retryGo (net : Nat → NetOutcome) : Nat → Nat → Option String → Nat → RetryResult
  | 0, att, lastErr, pen => ⟨none, some (lastErrOr lastErr), pen, 0, att - 1⟩
  | fuel + 1, att, _lastErr, pen =>
    match net att with
    | .resp s body msg =>
      if s ∈ RETRYABLE_STATUS then
        retryGo net fuel (att + 1) (some ("HTTP " ++ toString s)) (pen + 1)
      else if 400 ≤ s then
        ⟨none, some ("HTTP " ++ toString s ++ " - " ++ msg), pen, 0, att⟩
      else
        match body with
        | some d => ⟨some d, none, pen, 1, att⟩
        | none => ⟨none, some ("Erro Inesperado: JSONDecodeError"), pen, 0, att⟩
    | .timeout => retryGo net fuel (att + 1) (some "Timeout") (pen + 1)
    | .connError => retryGo net fuel (att + 1) (some "ConnectionError") (pen + 1)
    | .exc m => ⟨none, some ("Erro Inesperado: " ++ m), pen, 0, att⟩

/-- `request_cnpj_with_retry` (lines 329-367) as a function of the
per-attempt network oracle. -/
def request_cnpj_with_retry (net : Nat → NetOutcome) : RetryResult :=
  retryGo net TOTAL_RETRIES 1 none 0

/-- `list(dict.fromkeys(raw))` (line 470): exact-duplicate removal of
raw tokens keeping the first occurrence, in order. -/
def uniq_inputs : List String → List String :=
  go []
where
  /-- Recursive worker carrying the set of tokens already seen. -/
  go (seen : List String) : List String → List String
  | [] => []
  | x :: xs => if x ∈ seen then go seen xs else x :: go (x :: seen) xs

/-- The planning loop of lines 487-496: walk the deduplicated raw
tokens; skip tokens whose cleaning is empty or whose cleaned identifier
was already seen; otherwise mark it seen and schedule the original
token unless its cleaned identifier is already in the done set. -/
def planAux (seen done : List String) : List String → List String
  | [] => []
  | original :: rest =>
    if limpar_cnpj original = "" ∨ limpar_cnpj original ∈ seen then
      planAux seen done rest
    else if limpar_cnpj original ∈ done then
      planAux (limpar_cnpj original :: seen) done rest
    else original :: planAux (limpar_cnpj original :: seen) done rest

/-- `to_do_orig` (lines 487-496) built from the deduplicated inputs and
the resume ledger's completed set. -/
def plan_to_do (uniq : List String) (done : List String) : List String :=
  planAux [] done uniq

/-- The collection and consolidation of lines 523-578, projected to the
original token each row carries: futures complete in the order given by
`order` (indices into `to_do`), each completed row is appended to the
autosave buffer/file as it arrives (`as_completed`, lines 525-527), and
the final report is the file read back in append order (lines 566-570);
no re-sorting happens anywhere. -/
def consolidated_originals (to_do : List String) (order : List Nat) : List String :=
  order.filterMap (fun i => to_do.get? i)

/-- The 64 MD5 sine-derived constants (RFC 1321), used by `mk_job_id`
via `hashlib.md5` (line 199). -/
def md5K : List Nat :=
  [0xd76aa478, 0xe8c7b756, 0x242070db, 0xc1bdceee,
   0xf57c0faf, 0x4787c62a, 0xa8304613, 0xfd469501,
   0x698098d8, 0x8b44f7af, 0xffff5bb1, 0x895cd7be,
   0x6b901122, 0xfd987193, 0xa679438e, 0x49b40821,
   0xf61e2562, 0xc040b340, 0x265e5a51, 0xe9b6c7aa,
   0xd62f105d, 0x02441453, 0xd8a1e681, 0xe7d3fbc8,
   0x21e1cde6, 0xc33707d6, 0xf4d50d87, 0x455a14ed,
   0xa9e3e905, 0xfcefa3f8, 0x676f02d9, 0x8d2a4c8a,
   0xfffa3942, 0x8771f681, 0x6d9d6122, 0xfde5380c,
   0xa4beea44, 0x4bdecfa9, 0xf6bb4b60, 0xbebfbc70,
   0x289b7ec6, 0xeaa127fa, 0xd4ef3085, 0x04881d05,
   0xd9d4d039, 0xe6db99e5, 0x1fa27cf8, 0xc4ac5665,
   0xf4292244, 0x432aff97, 0xab9423a7, 0xfc93a039,
   0x655b59c3, 0x8f0ccc92, 0xffeff47d, 0x85845dd1,
   0x6fa87e4f, 0xfe2ce6e0, 0xa3014314, 0x4e0811a1,
   0xf7537e82, 0xbd3af235, 0x2ad7d2bb, 0xeb86d391]

/-- The MD5 per-round left-rotation amounts (RFC 1321). -/
def md5S : List Nat :=
  [7, 12, 17, 22, 7, 12, 17, 22, 7, 12, 17, 22, 7, 12, 17, 22,
   5, 9, 14, 20, 5, 9, 14, 20, 5, 9, 14, 20, 5, 9, 14, 20,
   4, 11, 16, 23, 4, 11, 16, 23, 4, 11, 16, 23, 4, 11, 16, 23,
   6, 10, 15, 21, 6, 10, 15, 21, 6, 10, 15, 21, 6, 10, 15, 21]

/-- 32-bit left rotation on naturals below `2^32`. -/
def rotl32 (x n : Nat) : Nat :=
  (x % 2 ^ (32 - n)) * 2 ^ n + x / 2 ^ (32 - n)

/-- MD5 round function F: `(b AND c) OR (NOT b AND d)`. -/
def md5F (b c d : Nat) : Nat := (b &&& c) ||| ((4294967295 - b) &&& d)

/-- MD5 round function G: `(b AND d) OR (c AND NOT d)`. -/
def md5G (b c d : Nat) : Nat := (b &&& d) ||| (c &&& (4294967295 - d))

/-- MD5 round function H: `b XOR c XOR d`. -/
def md5H (b c d : Nat) : Nat := b ^^^ c ^^^ d

/-- MD5 round function I: `c XOR (b OR NOT d)`. -/
def md5I (b c d : Nat) : Nat := c ^^^ (b ||| (4294967295 - d))

/-- The four 32-bit MD5 chaining words. -/
structure MD5State where
  a : Nat
  b : Nat
  c : Nat
  d : Nat
deriving DecidableEq

/-- One of the 64 MD5 rounds; `M` gives the 16 little-endian message
words of the current block. -/
def md5Round (M : Nat → Nat) (st : MD5State) (i : Nat) : MD5State :=
  let fg : Nat × Nat :=
    if i < 16 then (md5F st.b st.c st.d, i)
    else if i < 32 then (md5G st.b st.c st.d, (5 * i + 1) % 16)
    else if i < 48 then (md5H st.b st.c st.d, (3 * i + 5) % 16)
    else (md5I st.b st.c st.d, 7 * i % 16)
  let f := (fg.1 + st.a + md5K.getD i 0 + M fg.2) % 4294967296
  ⟨st.d, (st.b + rotl32 f (md5S.getD i 0)) % 4294967296, st.b, st.c⟩

/-- Process one 64-byte MD5 block. -/
def md5Block (st : MD5State) (block : List Nat) : MD5State :=
  let M : Nat → Nat := fun g =>
    block.getD (4 * g) 0 + 256 * block.getD (4 * g + 1) 0 +
      65536 * block.getD (4 * g + 2) 0 + 16777216 * block.getD (4 * g + 3) 0
  let e := (List.range 64).foldl (md5Round M) st
  ⟨(st.a + e.a) % 4294967296, (st.b + e.b) % 4294967296,
   (st.c + e.c) % 4294967296, (st.d + e.d) % 4294967296⟩

/-- `k` little-endian bytes of `x`. -/
def leBytes : Nat → Nat → List Nat
  | 0, _ => []
  | k + 1, x => x % 256 :: leBytes k (x / 256)

/-- MD5 padding: `0x80`, zeros to 56 mod 64, then the bit length as a
64-bit little-endian quantity. -/
def md5Pad (msg : List Nat) : List Nat :=
  let zeros := (120 - (msg.length + 1) % 64) % 64
  msg ++ [128] ++ List.replicate zeros 0 ++ leBytes 8 (8 * msg.length % 2 ^ 64)

/-- Fold the MD5 compression over consecutive 64-byte blocks; `fuel`
(structurally decreasing, instantiated to the byte count, an upper
bound on the block count) keeps the recursion kernel-reducible. -/
def md5Go : Nat → MD5State → List Nat → MD5State
  | 0, st, _ => st
  | _, st, [] => st
  | fuel + 1, st, x :: xs =>
    md5Go fuel (md5Block st ((x :: xs).take 64)) ((x :: xs).drop 64)

/-- Fold the MD5 compression over consecutive 64-byte blocks. -/
def md5Blocks (st : MD5State) (l : List Nat) : MD5State := md5Go l.length st l

/-- Hex character of a value below 16 (lowercase, as `hexdigest`). -/
def hexChar (n : Nat) : Char :=
  if n < 10 then Char.ofNat (48 + n) else Char.ofNat (87 + n)

/-- Two lowercase hex characters of a byte. -/
def byteHexChars (b : Nat) : List Char := [hexChar (b / 16), hexChar (b % 16)]

/-- MD5 digest of a byte sequence, as the 32-character lowercase hex
string `hashlib.md5(...).hexdigest()` produces. -/
def md5hex (msg : List Nat) : String :=
  let st := md5Blocks ⟨0x67452301, 0xefcdab89, 0x98badcfe, 0x10325476⟩ (md5Pad msg)
  ⟨(leBytes 4 st.a ++ leBytes 4 st.b ++ leBytes 4 st.c ++ leBytes 4 st.d).flatMap
      byteHexChars⟩

/-- UTF-8 encoding of a string as a byte list (`.encode("utf-8")`,
line 199). -/
def utf8Encode (s : String) : List Nat :=
  s.data.flatMap (fun c =>
    let n := c.toNat
    if n < 128 then [n]
    else if n < 2048 then [192 + n / 64, 128 + n % 64]
    else if n < 65536 then [224 + n / 4096, 128 + n / 64 % 64, 128 + n % 64]
    else [240 + n / 262144, 128 + n / 4096 % 64, 128 + n / 64 % 64, 128 + n % 64])

/-- `mk_job_id` (lines 197-199): the MD5 hex digest of the
newline-joined cleaned identifiers, encoded as UTF-8. -/
def mk_job_id (cnpjs : List String) : String :=
  md5hex (utf8Encode (String.intercalate "\n" (cnpjs.map limpar_cnpj)))

/-- C5: in any state with interval in `[0.75, 5.0]` (and a reachable
success counter, i.e. below the window), `penalize()` sets the interval
to `min(interval * 2.0, 5.0)` — the exact double unless capped at the
ceiling — and zeroes the success counter; `reward()` increments the
counter and, exactly when it reaches the window size 18, sets the
interval to `max(interval * 0.85, 0.75)` and zeroes the counter;
consequently both operations keep the interval inside `[0.75, 5.0]`. -/
theorem C5_adaptive_limiter_spec (st : AdaptiveLimiter)
    (hlo : MIN_INTERVAL_FLOOR ≤ st.min_interval)
    (hhi : st.min_interval ≤ MIN_INTERVAL_CEIL)
    (hcnt : st.successes_since_last_adjust < ADAPT_SUCC_WINDOW) :
    (st.penalize.min_interval = min (st.min_interval * 2) 5 ∧
      st.penalize.successes_since_last_adjust = 0) ∧
    (st.min_interval * 2 ≤ 5 → st.penalize.min_interval = st.min_interval * 2) ∧
    (5 < st.min_interval * 2 → st.penalize.min_interval = 5) ∧
    (st.reward.successes_since_last_adjust =
      if st.successes_since_last_adjust + 1 = ADAPT_SUCC_WINDOW then 0
      else st.successes_since_last_adjust + 1) ∧
    (st.successes_since_last_adjust + 1 = ADAPT_SUCC_WINDOW →
      st.reward.min_interval = max (st.min_interval * (85 / 100)) (3 / 4) ∧
        st.reward.successes_since_last_adjust = 0) ∧
    (st.successes_since_last_adjust + 1 ≠ ADAPT_SUCC_WINDOW →
      st.reward.min_interval = st.min_interval) ∧
    (MIN_INTERVAL_FLOOR ≤ st.penalize.min_interval ∧
      st.penalize.min_interval ≤ MIN_INTERVAL_CEIL) ∧
    (MIN_INTERVAL_FLOOR ≤ st.reward.min_interval ∧
      st.reward.min_interval ≤ MIN_INTERVAL_CEIL) ∧
    st.reward.successes_since_last_adjust < ADAPT_SUCC_WINDOW := by
  have hlo2 : (3 : ℚ) / 4 ≤ st.min_interval := hlo
  have hhi2 : st.min_interval ≤ (5 : ℚ) := hhi
  have hcnt2 : st.successes_since_last_adjust < 18 := hcnt
  refine ⟨⟨rfl, rfl⟩, ?_, ?_, ?_, ?_, ?_, ?_, ?_, ?_⟩
  · intro h
    show min (st.min_interval * ADAPT_FAIL_BACKOFF) MIN_INTERVAL_CEIL = _
    unfold ADAPT_FAIL_BACKOFF MIN_INTERVAL_CEIL
    exact min_eq_left h
  · intro h
    show min (st.min_interval * ADAPT_FAIL_BACKOFF) MIN_INTERVAL_CEIL = _
    unfold ADAPT_FAIL_BACKOFF MIN_INTERVAL_CEIL
    exact min_eq_right (le_of_lt h)
  · unfold AdaptiveLimiter.reward ADAPT_SUCC_WINDOW
    by_cases h : st.successes_since_last_adjust + 1 = 18
    · simp [h]
    · have h2 : ¬ st.successes_since_last_adjust + 1 ≥ 18 := by omega
      simp [h, h2]
  · intro h
    unfold AdaptiveLimiter.reward
    rw [if_pos (by unfold ADAPT_SUCC_WINDOW at h ⊢; omega)]
    exact ⟨rfl, rfl⟩
  · intro h
    unfold AdaptiveLimiter.reward
    rw [if_neg (by unfold ADAPT_SUCC_WINDOW at h ⊢; omega)]
  · constructor
    · show MIN_INTERVAL_FLOOR ≤ min (st.min_interval * ADAPT_FAIL_BACKOFF) MIN_INTERVAL_CEIL
      unfold MIN_INTERVAL_FLOOR ADAPT_FAIL_BACKOFF MIN_INTERVAL_CEIL
      refine le_min (by linarith) (by norm_num)
    · show min (st.min_interval * ADAPT_FAIL_BACKOFF) MIN_INTERVAL_CEIL ≤ MIN_INTERVAL_CEIL
      exact min_le_right _ _
  · unfold AdaptiveLimiter.reward MIN_INTERVAL_FLOOR MIN_INTERVAL_CEIL
    by_cases h : st.successes_since_last_adjust + 1 ≥ ADAPT_SUCC_WINDOW
    · rw [if_pos h]
      exact ⟨le_max_right _ _, max_le (by linarith) (by norm_num)⟩
    · rw [if_neg h]
      exact ⟨hlo2, hhi2⟩
  · by_cases h : st.successes_since_last_adjust + 1 ≥ ADAPT_SUCC_WINDOW
    · unfold AdaptiveLimiter.reward
      rw [if_pos h]
      show 0 < ADAPT_SUCC_WINDOW
      unfold ADAPT_SUCC_WINDOW
      omega
    · unfold AdaptiveLimiter.reward
      rw [if_neg h]
      show st.successes_since_last_adjust + 1 < ADAPT_SUCC_WINDOW
      omega

/-- C5 witness: the theorem applied at the concrete state with interval
1.0 and 17 accumulated successes. -/
theorem C5_adaptive_limiter_spec_witness :
    ((MIN_INTERVAL_FLOOR ≤ (AdaptiveLimiter.mk 1 17).min_interval) ∧
      ((AdaptiveLimiter.mk 1 17).min_interval ≤ MIN_INTERVAL_CEIL) ∧
      ((AdaptiveLimiter.mk 1 17).successes_since_last_adjust < ADAPT_SUCC_WINDOW)) ∧
    ((AdaptiveLimiter.mk 1 17).penalize.min_interval = min ((1 : ℚ) * 2) 5 ∧
      (AdaptiveLimiter.mk 1 17).penalize.successes_since_last_adjust = 0) := by
  have h1 : MIN_INTERVAL_FLOOR ≤ (AdaptiveLimiter.mk 1 17).min_interval := by
    unfold MIN_INTERVAL_FLOOR; norm_num
  have h2 : (AdaptiveLimiter.mk 1 17).min_interval ≤ MIN_INTERVAL_CEIL := by
    unfold MIN_INTERVAL_CEIL; norm_num
  have h3 : (AdaptiveLimiter.mk 1 17).successes_since_last_adjust < ADAPT_SUCC_WINDOW := by
    unfold ADAPT_SUCC_WINDOW; norm_num
  exact ⟨⟨h1, h2, h3⟩, (C5_adaptive_limiter_spec (AdaptiveLimiter.mk 1 17) h1 h2 h3).1⟩

/-- One retryable attempt (retryable status, timeout, connection error)
penalizes, records its description as `last_err`, and loops. -/
theorem retryGo_step (net : Nat → NetOutcome) (fuel att : Nat) (le : Option String)
    (pen : Nat) (h : retryableOutcome (net att) = true) :
    retryGo net (fuel + 1) att le pen
      = retryGo net fuel (att + 1) (some (retryErrDesc (net att))) (pen + 1) := by
  cases ho : net att with
  | resp s body msg =>
    rw [ho] at h
    simp only [retryableOutcome] at h
    have hs : s ∈ RETRYABLE_STATUS := of_decide_eq_true h
    simp [retryGo, ho, retryErrDesc, hs]
  | timeout => simp [retryGo, ho, retryErrDesc]
  | connError => simp [retryGo, ho, retryErrDesc]
  | exc m => rw [ho] at h; simp only [retryableOutcome] at h; cases h

/-- A response whose status is neither retryable nor below 400 raises
`HTTPError` and is returned at once, without touching the penalize
counter. -/
theorem retryGo_terminal (net : Nat → NetOutcome) (fuel att : Nat) (le : Option String)
    (pen : Nat) (s : Nat) (body : Option ApiData) (msg : String)
    (hnet : net att = .resp s body msg) (hs : s ∉ RETRYABLE_STATUS) (h4 : 400 ≤ s) :
    retryGo net (fuel + 1) att le pen
      = ⟨none, some ("HTTP " ++ toString s ++ " - " ++ msg), pen, 0, att⟩ := by
  simp [retryGo, hnet, hs, h4]

/-- The `last_err` left by a retryable outcome is never empty. -/
theorem retryErrDesc_ne_empty (o : NetOutcome) (h : retryableOutcome o = true) :
    retryErrDesc o ≠ "" := by
  cases o with
  | resp s body msg =>
    intro hc
    have hlen := congrArg String.length hc
    rw [retryErrDesc] at hlen
    rw [String.length_append] at hlen
    have h5 : ("HTTP " : String).length = 5 := rfl
    have h0 : ("" : String).length = 0 := rfl
    omega
  | timeout => simp [retryErrDesc]
  | connError => simp [retryErrDesc]
  | exc m => simp only [retryableOutcome] at h; cases h

/-- C4: in `request_cnpj_with_retry`, after any run of `k < 3` retryable
failures, an HTTP error status outside `{429, 500, 502, 503, 504}` at
attempt `k + 1` is terminal — `penalize()` is not invoked for it (the
penalize count stays `k`), no further attempt is made (the attempt count
is `k + 1`), and the descriptive `"HTTP <status> - <message>"` error is
returned at once with no record; and when all 3 attempts fail
retryably, the function returns no record together with the last
observed error description (that of attempt 3), having penalized each
of the 3 attempts. -/
theorem C4_retry_terminal_and_exhaustion :
    (∀ (net : Nat → NetOutcome) (k : Nat), k < TOTAL_RETRIES →
      (∀ i, 1 ≤ i → i ≤ k → retryableOutcome (net i) = true) →
      ∀ s body msg, net (k + 1) = .resp s body msg →
        s ∉ RETRYABLE_STATUS → 400 ≤ s →
        request_cnpj_with_retry net =
          ⟨none, some ("HTTP " ++ toString s ++ " - " ++ msg), k, 0, k + 1⟩) ∧
    (∀ net : Nat → NetOutcome,
      (∀ i, 1 ≤ i → i ≤ TOTAL_RETRIES → retryableOutcome (net i) = true) →
      request_cnpj_with_retry net =
        ⟨none, some (retryErrDesc (net TOTAL_RETRIES)), TOTAL_RETRIES, 0,
          TOTAL_RETRIES⟩) := by
  constructor
  · intro net k hk h s body msg hnet hs h4
    have hk3 : k = 0 ∨ k = 1 ∨ k = 2 := by
      rw [TOTAL_RETRIES] at hk; omega
    rcases hk3 with rfl | rfl | rfl
    · calc request_cnpj_with_retry net
          = retryGo net (2 + 1) 1 none 0 := rfl
        _ = ⟨none, some ("HTTP " ++ toString s ++ " - " ++ msg), 0, 0, 0 + 1⟩ :=
          retryGo_terminal net 2 (0 + 1) none 0 s body msg hnet hs h4
    · calc request_cnpj_with_retry net
          = retryGo net (2 + 1) 1 none 0 := rfl
        _ = retryGo net 2 (1 + 1) (some (retryErrDesc (net 1))) (0 + 1) :=
          retryGo_step net 2 1 none 0 (h 1 le_rfl le_rfl)
        _ = ⟨none, some ("HTTP " ++ toString s ++ " - " ++ msg), 0 + 1, 0, 1 + 1⟩ :=
          retryGo_terminal net 1 (1 + 1) _ (0 + 1) s body msg hnet hs h4
        _ = ⟨none, some ("HTTP " ++ toString s ++ " - " ++ msg), 1, 0, 1 + 1⟩ := rfl
    · calc request_cnpj_with_retry net
          = retryGo net (2 + 1) 1 none 0 := rfl
        _ = retryGo net 2 (1 + 1) (some (retryErrDesc (net 1))) (0 + 1) :=
          retryGo_step net 2 1 none 0 (h 1 le_rfl (by omega))
        _ = retryGo net 1 (2 + 1) (some (retryErrDesc (net 2))) (1 + 1) :=
          retryGo_step net 1 2 _ (0 + 1) (h 2 (by omega) (by omega))
        _ = ⟨none, some ("HTTP " ++ toString s ++ " - " ++ msg), 1 + 1, 0, 2 + 1⟩ :=
          retryGo_terminal net 0 (2 + 1) _ (1 + 1) s body msg hnet hs h4
        _ = ⟨none, some ("HTTP " ++ toString s ++ " - " ++ msg), 2, 0, 2 + 1⟩ := rfl
  · intro net h
    have h3 : retryableOutcome (net 3) = true := h 3 (by omega) (by rw [TOTAL_RETRIES])
    calc request_cnpj_with_retry net
        = retryGo net (2 + 1) 1 none 0 := rfl
      _ = retryGo net 2 (1 + 1) (some (retryErrDesc (net 1))) (0 + 1) :=
        retryGo_step net 2 1 none 0 (h 1 le_rfl (by rw [TOTAL_RETRIES]; omega))
      _ = retryGo net 1 (2 + 1) (some (retryErrDesc (net 2))) (1 + 1) :=
        retryGo_step net 1 2 _ (0 + 1) (h 2 (by omega) (by rw [TOTAL_RETRIES]; omega))
      _ = retryGo net 0 (3 + 1) (some (retryErrDesc (net 3))) (2 + 1) :=
        retryGo_step net 0 3 _ (1 + 1) h3
      _ = ⟨none, some (lastErrOr (some (retryErrDesc (net 3)))), 2 + 1, 0, 3 + 1 - 1⟩ :=
        rfl
      _ = ⟨none, some (retryErrDesc (net 3)), TOTAL_RETRIES, 0, TOTAL_RETRIES⟩ := by
        rw [lastErrOr, if_neg (retryErrDesc_ne_empty (net 3) h3), TOTAL_RETRIES]

/-- C4 witness: a timeout on attempt 1 followed by a 404 on attempt 2
ends with the descriptive terminal error, one single penalize, and no
third attempt. -/
theorem C4_retry_terminal_and_exhaustion_witness :
    (1 < TOTAL_RETRIES ∧
      (∀ i, 1 ≤ i → i ≤ 1 → retryableOutcome
        ((fun j => if j = 1 then NetOutcome.timeout
          else NetOutcome.resp 404 none "Not found") i) = true) ∧
      (404 : Nat) ∉ RETRYABLE_STATUS ∧ (400 : Nat) ≤ 404) ∧
    request_cnpj_with_retry
        (fun j => if j = 1 then NetOutcome.timeout
          else NetOutcome.resp 404 none "Not found") =
      ⟨none, some ("HTTP " ++ toString (404 : Nat) ++ " - " ++ "Not found"), 1, 0,
        1 + 1⟩ := by
  have hr : ∀ i, 1 ≤ i → i ≤ 1 → retryableOutcome
      ((fun j => if j = 1 then NetOutcome.timeout
        else NetOutcome.resp 404 none "Not found") i) = true := by
    intro i h1 h2
    have hi : i = 1 := by omega
    subst hi
    decide
  refine ⟨⟨by rw [TOTAL_RETRIES]; omega, hr, by decide, by omega⟩, ?_⟩
  exact C4_retry_terminal_and_exhaustion.1
    (fun j => if j = 1 then NetOutcome.timeout else NetOutcome.resp 404 none "Not found")
    1 (by rw [TOTAL_RETRIES]; omega) hr 404 none "Not found" rfl (by decide) (by omega)

/-- An ASCII digit has code point between 48 and 57. -/
theorem isDigit_toNat_bounds (c : Char) (h : c.isDigit = true) :
    48 ≤ c.toNat ∧ c.toNat ≤ 57 := by
  simp [Char.isDigit] at h
  exact h

/-- `dv` always produces a single-digit value. -/
theorem dvNat_lt_10 (ds pesos : List Nat) : dvNat ds pesos < 10 := by
  have h11 : ((ds.zip pesos).foldl (fun a p => a + p.1 * p.2) 0) % 11 < 11 :=
    Nat.mod_lt _ (by omega)
  simp only [dvNat]
  split <;> omega

/-- The character of a digit value is an ASCII digit. -/
theorem digitChar_isDigit (n : Nat) (h : n < 10) : (digitChar n).isDigit = true := by
  interval_cases n <;> decide

/-- Round trip: value of the character of a digit value. -/
theorem digitValT_digitChar (n : Nat) (h : n < 10) : digitValT (digitChar n) = n := by
  interval_cases n <;> decide

/-- Round trip: character of the value of an ASCII digit character. -/
theorem digitChar_digitValT (c : Char) (h : c.isDigit = true) :
    digitChar (digitValT c) = c := by
  obtain ⟨h1, _⟩ := isDigit_toNat_bounds c h
  unfold digitChar digitValT
  rw [Nat.add_sub_cancel' h1]
  exact Char.ofNat_toNat c

/-- `parseDigits` succeeds exactly on all-digit lists, and then returns
the mapped digit values. -/
theorem parseDigits_eq_map (l : List Char) (h : ∀ c ∈ l, c.isDigit = true) :
    parseDigits l = some (l.map digitValT) := by
  induction l with
  | nil => rfl
  | cons c cs ih =>
    have hc : c.isDigit = true := h c (List.mem_cons_self c cs)
    have ihh := ih (fun x hx => h x (List.mem_cons_of_mem c hx))
    rw [parseDigits, ihh, digitVal, if_pos hc]
    rfl

/-- `parseDigits` fails as soon as some character is not a digit. -/
theorem parseDigits_eq_none (l : List Char) (h : ¬ ∀ c ∈ l, c.isDigit = true) :
    parseDigits l = none := by
  induction l with
  | nil => exact absurd (by intro c hc; cases hc) h
  | cons c cs ih =>
    rw [parseDigits]
    by_cases hc : c.isDigit = true
    · have hcs : ¬ ∀ x ∈ cs, x.isDigit = true := by
        intro hall
        exact h (fun x hx => by
          rcases List.mem_cons.mp hx with rfl | hx2
          · exact hc
          · exact hall x hx2)
      rw [ih hcs, digitVal, if_pos hc]
    · rw [digitVal, if_neg hc]

/-- Shape of a successful check-digit computation: two characters, each
the character of a single-digit value. -/
theorem calcularDV_some_shape (b dvs : List Char) (h : calcularDV b = some dvs) :
    ∃ d1 d2, d1 < 10 ∧ d2 < 10 ∧ dvs = [digitChar d1, digitChar d2] := by
  unfold calcularDV at h
  cases hp : parseDigits (b.take 12) with
  | none => rw [hp] at h; cases h
  | some ds =>
    rw [hp] at h
    exact ⟨dvNat ds pesos_12, dvNat (ds ++ [dvNat ds pesos_12]) pesos_13,
      dvNat_lt_10 _ _, dvNat_lt_10 _ _, (Option.some.inj h).symm⟩

/-- `calcularDV` succeeds when its first twelve characters are digits. -/
theorem calcularDV_isSome (b : List Char) (h : ∀ c ∈ b.take 12, c.isDigit = true) :
    calcularDV b = some
      [digitChar (dvNat ((b.take 12).map digitValT) pesos_12),
       digitChar (dvNat (((b.take 12).map digitValT) ++
         [dvNat ((b.take 12).map digitValT) pesos_12]) pesos_13)] := by
  unfold calcularDV
  rw [parseDigits_eq_map _ h]
  rfl

/-- All-identical lists have no two distinct members. -/
theorem allSame_all_eq (l : List Char) (h : allSame l = true) :
    ∀ a ∈ l, ∀ b ∈ l, a = b := by
  cases l with
  | nil => intro a ha; cases ha
  | cons c cs =>
    rw [allSame, List.all_eq_true] at h
    have hmem : ∀ a ∈ c :: cs, a = c := by
      intro a ha
      rcases List.mem_cons.mp ha with rfl | ha2
      · rfl
      · exact beq_iff_eq.mp (h a ha2)
    intro a ha b hb
    rw [hmem a ha, hmem b hb]

/-- The rebuild branch of the headquarters normalization, as an
equation. -/
theorem toMatrizChars_rebuild (l : List Char) (h14 : l.length = 14)
    (hseg : (l.drop 8).take 4 ≠ ['0', '0', '0', '1']) :
    toMatrizChars l = (calcularDV (l.take 8 ++ ['0', '0', '0', '1'])).map
      (fun dvs => (l.take 8 ++ ['0', '0', '0', '1']) ++ dvs) := by
  unfold toMatrizChars
  rw [if_neg (by omega), if_pos hseg]

/-- The pass-through branches of the headquarters normalization. -/
theorem toMatrizChars_id (l : List Char)
    (h : l.length ≠ 14 ∨ (l.drop 8).take 4 = ['0', '0', '0', '1']) :
    toMatrizChars l = some l := by
  unfold toMatrizChars
  rcases h with h | h
  · rw [if_pos h]
  · by_cases hl : l.length = 14
    · rw [if_neg (not_not_intro hl), if_neg (not_not_intro h)]
    · rw [if_pos hl]

/-- Character-level idempotence of the headquarters normalization: a
rebuilt identifier has branch segment `"0001"` and length 14, so a
second application returns it unchanged; pass-through and exception
cases are also stable. -/
theorem toMatrizChars_idem (l : List Char) :
    (toMatrizChars l).bind toMatrizChars = toMatrizChars l := by
  by_cases h14 : l.length = 14
  · by_cases hseg : (l.drop 8).take 4 = ['0', '0', '0', '1']
    · have he : toMatrizChars l = some l := toMatrizChars_id l (Or.inr hseg)
      rw [he]
      show toMatrizChars l = some l
      exact he
    · have hlen8 : (l.take 8).length = 8 := by rw [List.length_take]; omega
      rw [toMatrizChars_rebuild l h14 hseg]
      cases hdv : calcularDV (l.take 8 ++ ['0', '0', '0', '1']) with
      | none => rfl
      | some dvs =>
        obtain ⟨d1, d2, hd1, hd2, rfl⟩ := calcularDV_some_shape _ _ hdv
        have hlen : ((l.take 8 ++ ['0', '0', '0', '1']) ++
            [digitChar d1, digitChar d2]).length = 14 := by
          simp [hlen8]
        have hseg2 : (((l.take 8 ++ ['0', '0', '0', '1']) ++
            [digitChar d1, digitChar d2]).drop 8).take 4 = ['0', '0', '0', '1'] := by
          rw [List.append_assoc, List.drop_left' hlen8]
          rfl
        have hfix := toMatrizChars_id
          ((l.take 8 ++ ['0', '0', '0', '1']) ++ [digitChar d1, digitChar d2])
          (Or.inr hseg2)
        show toMatrizChars _ = _
        exact hfix
  · have he : toMatrizChars l = some l := toMatrizChars_id l (Or.inl h14)
    rw [he]
    show toMatrizChars l = some l
    exact he

/-- C8: `to_matriz_if_filial` is idempotent — applying it twice (with
the possible exception propagated monadically) yields the same result
as applying it once, for every input string. -/
theorem C8_to_matriz_if_filial_idempotent (d : String) :
    (to_matriz_if_filial d).bind to_matriz_if_filial = to_matriz_if_filial d := by
  have hchars := toMatrizChars_idem d.data
  cases h : toMatrizChars d.data with
  | none =>
    unfold to_matriz_if_filial
    rw [h]
    rfl
  | some l =>
    rw [h] at hchars
    have hl : toMatrizChars l = some l := hchars
    unfold to_matriz_if_filial
    rw [h]
    show (toMatrizChars l).map (fun x => (⟨x⟩ : String)) = some ⟨l⟩
    rw [hl]
    rfl

/-- C10: for every 14-character digit string whose branch segment
(positions 9-12) differs from `"0001"`, `to_matriz_if_filial` returns
the original 8-digit root, the segment `"0001"`, and two freshly
recomputed check digits — a 14-digit string that always satisfies
`cnpj_is_valid` (correct length, never all-identical thanks to the
`"0001"` segment, and checksum-valid by construction). -/
theorem C10_to_matriz_result_valid (s : String)
    (h14 : s.data.length = 14)
    (hdig : ∀ c ∈ s.data, c.isDigit = true)
    (hseg : (s.data.drop 8).take 4 ≠ ['0', '0', '0', '1']) :
    ∃ dvs, calcularDV (s.data.take 8 ++ ['0', '0', '0', '1']) = some dvs ∧
      to_matriz_if_filial s = some ⟨(s.data.take 8 ++ ['0', '0', '0', '1']) ++ dvs⟩ ∧
      ((s.data.take 8 ++ ['0', '0', '0', '1']) ++ dvs).length = 14 ∧
      (∀ c ∈ (s.data.take 8 ++ ['0', '0', '0', '1']) ++ dvs, c.isDigit = true) ∧
      cnpj_is_valid ⟨(s.data.take 8 ++ ['0', '0', '0', '1']) ++ dvs⟩ = some true := by
  have hlen8 : (s.data.take 8).length = 8 := by rw [List.length_take]; omega
  have hlen12 : (s.data.take 8 ++ ['0', '0', '0', '1']).length = 12 := by
    simp [hlen8]
  have hb12 : ∀ c ∈ s.data.take 8 ++ ['0', '0', '0', '1'], c.isDigit = true := by
    intro c hc
    rcases List.mem_append.mp hc with hc | hc
    · exact hdig c (List.mem_of_mem_take hc)
    · fin_cases hc <;> decide
  have hb12t : ∀ c ∈ (s.data.take 8 ++ ['0', '0', '0', '1']).take 12, c.isDigit = true :=
    fun c hc => hb12 c (List.mem_of_mem_take hc)
  have hdv := calcularDV_isSome (s.data.take 8 ++ ['0', '0', '0', '1']) hb12t
  obtain ⟨d1, d2, hd1, hd2, hshape⟩ := calcularDV_some_shape _ _ hdv
  refine ⟨[digitChar d1, digitChar d2], ?_, ?_, ?_, ?_, ?_⟩
  · rw [hdv, hshape]
  · unfold to_matriz_if_filial
    rw [toMatrizChars_rebuild s.data h14 hseg, hdv, hshape]
    rfl
  · simp [hlen8]
  · intro c hc
    rcases List.mem_append.mp hc with hc | hc
    · exact hb12 c hc
    · rcases List.mem_cons.mp hc with rfl | hc2
      · exact digitChar_isDigit d1 hd1
      · rcases List.mem_cons.mp hc2 with rfl | hc3
        · exact digitChar_isDigit d2 hd2
        · cases hc3
  · have hdv2 : calcularDV (s.data.take 8 ++ ['0', '0', '0', '1']) =
        some [digitChar d1, digitChar d2] := by rw [hdv, hshape]
    have hlen14 : ((s.data.take 8 ++ ['0', '0', '0', '1']) ++
        [digitChar d1, digitChar d2]).length = 14 := by simp [hlen8]
    have hone : ('1' : Char) ∈ (s.data.take 8 ++ ['0', '0', '0', '1']) ++
        [digitChar d1, digitChar d2] := by
      apply List.mem_append_left
      apply List.mem_append_right
      decide
    have hzero : ('0' : Char) ∈ (s.data.take 8 ++ ['0', '0', '0', '1']) ++
        [digitChar d1, digitChar d2] := by
      apply List.mem_append_left
      apply List.mem_append_right
      decide
    have hsame : allSame ((s.data.take 8 ++ ['0', '0', '0', '1']) ++
        [digitChar d1, digitChar d2]) = false := by
      by_contra hs
      have hs2 : allSame ((s.data.take 8 ++ ['0', '0', '0', '1']) ++
          [digitChar d1, digitChar d2]) = true := by
        revert hs
        cases allSame ((s.data.take 8 ++ ['0', '0', '0', '1']) ++
          [digitChar d1, digitChar d2]) <;> simp
      have := allSame_all_eq _ hs2 '0' hzero '1' hone
      cases this
    show cnpjValidChars ((s.data.take 8 ++ ['0', '0', '0', '1']) ++
      [digitChar d1, digitChar d2]) = some true
    unfold cnpjValidChars
    rw [if_neg]
    · rw [List.take_left' hlen12, List.drop_left' hlen12, hdv2]
      show some ([digitChar d1, digitChar d2] == [digitChar d1, digitChar d2]) = some true
      rw [beq_self_eq_true]
    · intro hcond
      rcases hcond with hc | hc | hc
      · rw [List.isEmpty_iff] at hc
        rw [hc] at hlen14
        cases hlen14
      · exact hc hlen14
      · rw [hsame] at hc
        cases hc

/-- C10 witness: the theorem applied to the branch identifier
`"11222333000299"` (segment `"0002"`). -/
theorem C10_to_matriz_result_valid_witness :
    (("11222333000299" : String).data.length = 14 ∧
      (∀ c ∈ ("11222333000299" : String).data, c.isDigit = true) ∧
      (("11222333000299" : String).data.drop 8).take 4 ≠ ['0', '0', '0', '1']) ∧
    (∃ dvs, calcularDV (("11222333000299" : String).data.take 8 ++
        ['0', '0', '0', '1']) = some dvs ∧
      to_matriz_if_filial "11222333000299" =
        some ⟨(("11222333000299" : String).data.take 8 ++ ['0', '0', '0', '1']) ++ dvs⟩ ∧
      ((("11222333000299" : String).data.take 8 ++ ['0', '0', '0', '1']) ++
        dvs).length = 14 ∧
      (∀ c ∈ (("11222333000299" : String).data.take 8 ++ ['0', '0', '0', '1']) ++ dvs,
        c.isDigit = true) ∧
      cnpj_is_valid ⟨(("11222333000299" : String).data.take 8 ++
        ['0', '0', '0', '1']) ++ dvs⟩ = some true) :=
  ⟨⟨by decide, by decide, by decide⟩,
    C10_to_matriz_result_valid "11222333000299" (by decide) (by decide) (by decide)⟩

/-- C9: an input whose cleaned digits fail validation short-circuits —
`process_one_cnpj` performs no network request, never consults the
cache, and returns the placeholder row carrying the original text, the
cleaned digits, the error message in the legal-name column and `"N/A"`
in every enrichment column. -/
theorem C9_invalid_short_circuit (original : String) (force : Bool)
    (cache : String → Option Row) (net : String → Option ApiData × Option String)
    (cy : Int) (ibge : String → String → String) (ts : String)
    (hinv : cnpj_is_valid (limpar_cnpj original) = some false) :
    process_one_cnpj original force cache net cy ibge ts =
      some ⟨{ cnpj_original := original
              cnpj_limpo := limpar_cnpj original
              razao_social := "CNPJ inválido (DV)"
              uf := "N/A", municipio := "N/A", endereco := "N/A"
              regime_tributario := "N/A", ano_regime_tributario := "N/A"
              simples_nacional := "N/A", mei := "N/A"
              cnae_principal := "N/A", cnae_secundario := "N/A"
              codigo_ibge_municipio := "N/A", timestamp := ts }, false⟩ := by
  unfold process_one_cnpj
  rw [hinv]
  rfl

/-- C9 witness: the all-identical input `"00000000000000"` produces the
validation-error row with no network call. -/
theorem C9_invalid_short_circuit_witness :
    cnpj_is_valid (limpar_cnpj "00000000000000") = some false ∧
    process_one_cnpj "00000000000000" false (fun _ => none) (fun _ => (none, none))
        2025 (fun _ _ => "N/A") "2025-10-12 12:00:00" =
      some ⟨{ cnpj_original := "00000000000000"
              cnpj_limpo := limpar_cnpj "00000000000000"
              razao_social := "CNPJ inválido (DV)"
              uf := "N/A", municipio := "N/A", endereco := "N/A"
              regime_tributario := "N/A", ano_regime_tributario := "N/A"
              simples_nacional := "N/A", mei := "N/A"
              cnae_principal := "N/A", cnae_secundario := "N/A"
              codigo_ibge_municipio := "N/A", timestamp := "2025-10-12 12:00:00" },
            false⟩ :=
  ⟨by decide,
    C9_invalid_short_circuit "00000000000000" false (fun _ => none)
      (fun _ => (none, none)) 2025 (fun _ _ => "N/A") "2025-10-12 12:00:00" (by decide)⟩

/-- Formalisation of the effective regime label claimed by the spec
(micro-entrepreneur flag wins, then simplified-regime flag, then the
default): this derived field is what claim C3 asserts the output
contains; it is written from the claim, not from the source, in order
to compare the two. -/
def effective_regime_label (mei simples : Option Bool) : String :=
  if mei = some true then "MEI" else if simples = some true then "Simples" else "NORMAL"

/-- A registry payload whose micro-entrepreneur flag is set while its
regime history carries `"LUCRO PRESUMIDO"` for 2024. -/
def c3Api : ApiData :=
  { has_cnpj := true
    razao_social := some "EMPRESA EXEMPLO LTDA"
    uf := some "SP"
    municipio := some "SAO PAULO"
    logradouro := none, numero := none, complemento := none, bairro := none
    regime_tributario := some [some ⟨some 2024, some "LUCRO PRESUMIDO"⟩]
    opcao_pelo_simples := some false
    opcao_pelo_mei := some true
    cnae_fiscal := none, cnae_fiscal_descricao := none
    cnaes_secundarios := none
    municipio_ibge := some "3550308" }

/-- The row `montar_row` produces for `c3Api`. -/
def c3Row : Row :=
  montar_row "11.222.333/0001-81" "11222333000181" (some c3Api) none 2025
    (fun _ _ => "N/A") "2025-10-12 12:00:00"

/-- C3 counterexample: with the micro-entrepreneur flag set the claimed
flag-precedence label would be `"MEI"`, but the row's regime column
holds the history-derived `"LUCRO PRESUMIDO"` instead, the flag itself
renders as `"SIM"`, and no column of the row carries the claimed label
at all. -/
theorem C3_effective_label_counterexample :
    effective_regime_label c3Api.opcao_pelo_mei c3Api.opcao_pelo_simples = "MEI" ∧
    c3Row.regime_tributario = "LUCRO PRESUMIDO" ∧
    c3Row.regime_tributario ≠
      effective_regime_label c3Api.opcao_pelo_mei c3Api.opcao_pelo_simples ∧
    c3Row.mei = "SIM" ∧
    c3Row.simples_nacional = "NÃO" ∧
    ([c3Row.cnpj_original, c3Row.cnpj_limpo, c3Row.razao_social, c3Row.uf,
      c3Row.municipio, c3Row.endereco, c3Row.regime_tributario,
      c3Row.ano_regime_tributario, c3Row.simples_nacional, c3Row.mei,
      c3Row.cnae_principal, c3Row.cnae_secundario, c3Row.codigo_ibge_municipio,
      c3Row.timestamp].all (fun f => !(f == "MEI"))) = true := by
  refine ⟨rfl, by decide, by decide, by decide, by decide, by decide⟩

/-- C3 amended: for every successful enrichment record, the `Regime
Tributario` and `Ano Regime Tributario` columns come from the
regime-history selection `get_regime_tributario`, independent of the
two enrollment flags; the flags are reported only in their own
`Simples Nacional` and `MEI` columns, rendered `"SIM"`/`"NÃO"`/`"N/A"`;
no flag-precedence effective label is computed. -/
theorem C3_regime_columns_amended (api : ApiData) (h : api.has_cnpj = true)
    (original cleaned : String) (err : Option String) (cy : Int)
    (ibge : String → String → String) (ts : String) :
    (montar_row original cleaned (some api) err cy ibge ts).regime_tributario =
      (get_regime_tributario cy api.regime_tributario).1 ∧
    (montar_row original cleaned (some api) err cy ibge ts).ano_regime_tributario =
      (get_regime_tributario cy api.regime_tributario).2 ∧
    (montar_row original cleaned (some api) err cy ibge ts).simples_nacional =
      renderFlag api.opcao_pelo_simples ∧
    (montar_row original cleaned (some api) err cy ibge ts).mei =
      renderFlag api.opcao_pelo_mei ∧
    (∀ b1 b2 : Option Bool,
      (montar_row original cleaned
        (some { api with opcao_pelo_simples := b1, opcao_pelo_mei := b2 })
        err cy ibge ts).regime_tributario =
      (montar_row original cleaned (some api) err cy ibge ts).regime_tributario ∧
      (montar_row original cleaned
        (some { api with opcao_pelo_simples := b1, opcao_pelo_mei := b2 })
        err cy ibge ts).ano_regime_tributario =
      (montar_row original cleaned (some api) err cy ibge ts).ano_regime_tributario) := by
  refine ⟨?_, ?_, ?_, ?_, ?_⟩
  · simp [montar_row, h]
  · simp [montar_row, h]
  · simp [montar_row, h]
  · simp [montar_row, h]
  · intro b1 b2
    constructor
    · simp [montar_row, h]
    · simp [montar_row, h]

/-- C3 amended witness: the theorem applied to `c3Api`. -/
theorem C3_regime_columns_amended_witness :
    c3Api.has_cnpj = true ∧
    (montar_row "11.222.333/0001-81" "11222333000181" (some c3Api) none 2025
        (fun _ _ => "N/A") "2025-10-12 12:00:00").regime_tributario =
      (get_regime_tributario 2025 c3Api.regime_tributario).1 :=
  ⟨rfl, (C3_regime_columns_amended c3Api rfl "11.222.333/0001-81" "11222333000181"
    none 2025 (fun _ _ => "N/A") "2025-10-12 12:00:00").1⟩

/-- `List.find?` on a cons whose head satisfies the predicate (stated
with the predicate explicit, so it can be applied by `rw`). -/
theorem find_cons_pos {α : Type} (p : α → Bool) (a : α) (l : List α)
    (h : p a = true) : (a :: l).find? p = some a := by
  simp [List.find?, h]

/-- `List.find?` on a cons whose head fails the predicate. -/
theorem find_cons_neg {α : Type} (p : α → Bool) (a : α) (l : List α)
    (h : p a = false) : (a :: l).find? p = l.find? p := by
  simp [List.find?, h]

/-- Claim-side formulation of the tax-regime selection (written from the
claim's words, to be compared with the source translation): build the
year-to-label map, look for the first year of
`[cy, cy-1, …, cy-5]` that is present with a non-empty label
(`List.find?`), otherwise fall back to the entry with the maximum year
in the full history, otherwise the fixed `("N/A", "N/A")` pair. -/
def get_regime_spec (cy : Int) (regimes_list : RegimeList) : String × String :=
  match regimes_list with
  | none => ("N/A", "N/A")
  | some [] => ("N/A", "N/A")
  | some l =>
    let dicts := l.filterMap id
    match ((List.range 6).map (fun i => cy - (i : Int))).find?
        (fun y => formaTruthy ((regimesPorAno dicts y).getD none)) with
    | some y =>
      ((match regimesPorAno dicts y with
        | some (some s) => s
        | _ => "N/A"), intToStr y)
    | none =>
      match latestRegime dicts with
      | some r => (r.forma.getD "N/A", (r.ano.map intToStr).getD "N/A")
      | none => ("N/A", "N/A")

/-- The year-scan loop coincides with `List.find?` over the year list
followed by the map lookup. -/
theorem scanYears_eq_find (dicts : List RegimeEntry) (ys : List Int) :
    scanYears dicts ys =
      (ys.find? (fun y => formaTruthy ((regimesPorAno dicts y).getD none))).map
        (fun y => ((match regimesPorAno dicts y with
          | some (some s) => s
          | _ => "N/A"), intToStr y)) := by
  induction ys with
  | nil => rfl
  | cons y ys ih =>
    cases hy : regimesPorAno dicts y with
    | none =>
      have hp : (fun y => formaTruthy ((regimesPorAno dicts y).getD none)) y = false := by
        show formaTruthy ((regimesPorAno dicts y).getD none) = false
        rw [hy]; rfl
      rw [find_cons_neg _ y ys hp, ← ih]
      simp [scanYears, hy]
    | some f =>
      cases f with
      | none =>
        have hp : (fun y => formaTruthy ((regimesPorAno dicts y).getD none)) y
            = false := by
          show formaTruthy ((regimesPorAno dicts y).getD none) = false
          rw [hy]; rfl
        rw [find_cons_neg _ y ys hp, ← ih]
        simp [scanYears, hy]
      | some s =>
        by_cases hs : s = ""
        · have hp : (fun y => formaTruthy ((regimesPorAno dicts y).getD none)) y
              = false := by
            show formaTruthy ((regimesPorAno dicts y).getD none) = false
            rw [hy, hs]; rfl
          rw [find_cons_neg _ y ys hp, ← ih]
          simp [scanYears, hy, hs]
        · have hp : (fun y => formaTruthy ((regimesPorAno dicts y).getD none)) y
              = true := by
            show formaTruthy ((regimesPorAno dicts y).getD none) = true
            rw [hy]
            simp [formaTruthy, hs]
          rw [find_cons_pos _ y ys hp]
          simp [scanYears, hy, hs]

/-- C6: `get_regime_tributario` realizes the claimed selection — the
year-to-label map is scanned from the current calendar year back
through five prior years for the first present, non-empty label; with
no hit in the 6-year window it falls back to the maximum-year entry of
the full history; an empty or non-list history gives
`("N/A", "N/A")`; and on the history
`[{2019, "A"}, {2024, "B"}]` in calendar year 2025 it returns
`("B", "2024")`. -/
theorem C6_regime_selection (cy : Int) (input : RegimeList) :
    get_regime_tributario cy input = get_regime_spec cy input ∧
    get_regime_tributario 2025
      (some [some ⟨some 2019, some "A"⟩, some ⟨some 2024, some "B"⟩]) =
      ("B", "2024") ∧
    get_regime_tributario cy none = ("N/A", "N/A") ∧
    get_regime_tributario cy (some []) = ("N/A", "N/A") := by
  refine ⟨?_, by decide, rfl, rfl⟩
  cases input with
  | none => rfl
  | some l =>
    cases l with
    | nil => rfl
    | cons a as =>
      simp only [get_regime_tributario, get_regime_spec, List.isEmpty_cons]
      rw [scanYears_eq_find]
      cases hf : ((List.range 6).map (fun i => cy - (i : Int))).find?
          (fun y => formaTruthy ((regimesPorAno ((a :: as).filterMap id) y).getD none)) with
      | none => simp [hf]
      | some y => simp [hf]

set_option maxRecDepth 20000 in
/-- C7 counterexample: two batches whose cleaned identifiers form the
same set but in swapped order produce different MD5 fingerprints, so
the fingerprint is not a function of the cleaned-identifier set and the
two batches do not share a resume file. -/
theorem C7_set_invariance_counterexample :
    (∀ c : String, c ∈ ["11222333000181", "60701190000104"].map limpar_cnpj ↔
      c ∈ ["60701190000104", "11222333000181"].map limpar_cnpj) ∧
    mk_job_id ["11222333000181", "60701190000104"] ≠
      mk_job_id ["60701190000104", "11222333000181"] := by
  constructor
  · intro c
    constructor <;> intro h <;> (simp only [List.map, List.mem_cons] at h ⊢; tauto)
  · decide

/-- C7 amended: the fingerprint is a deterministic function of the
cleaned identifier *sequence* — order- and multiplicity-sensitive: any
two batches whose raw inputs clean to the same list, in the same order,
share the fingerprint and hence the resume file. -/
theorem C7_job_id_function_of_cleaned_sequence (xs ys : List String)
    (h : xs.map limpar_cnpj = ys.map limpar_cnpj) :
    mk_job_id xs = mk_job_id ys := by
  unfold mk_job_id
  rw [h]

/-- C7 amended witness: a masked and a bare spelling of the same
identifier clean to the same one-element sequence, hence share the
fingerprint. -/
theorem C7_job_id_function_of_cleaned_sequence_witness :
    ["11.222.333/0001-81"].map limpar_cnpj = ["11222333000181"].map limpar_cnpj ∧
    mk_job_id ["11.222.333/0001-81"] = mk_job_id ["11222333000181"] :=
  ⟨by decide, C7_job_id_function_of_cleaned_sequence _ _ (by decide)⟩

/-- The planned batch is a sublist of the deduplicated input list, so
dispatch happens in first-seen input order. -/
theorem planAux_sublist (done : List String) :
    ∀ (l seen : List String), List.Sublist (planAux seen done l) l := by
  intro l
  induction l with
  | nil => intro seen; exact List.Sublist.refl []
  | cons o rest ih =>
    intro seen
    rw [planAux]
    split_ifs with h1 h2
    · exact (ih seen).cons o
    · exact (ih _).cons o
    · exact (ih _).cons₂ o

/-- Membership of a cleaned identifier in the planned batch: present
exactly when nonempty, not yet seen, not already done, and occurring
among the cleaned inputs. -/
theorem planAux_map_mem (done : List String) :
    ∀ (l seen : List String) (c : String),
      c ∈ (planAux seen done l).map limpar_cnpj ↔
        (c ≠ "" ∧ c ∉ seen ∧ c ∉ done ∧ c ∈ l.map limpar_cnpj) := by
  intro l
  induction l with
  | nil =>
    intro seen c
    simp [planAux]
  | cons o rest ih =>
    intro seen c
    rw [planAux]
    by_cases hc : c = limpar_cnpj o
    · subst hc
      split_ifs with h1 h2
      · rw [ih]
        rcases h1 with h1 | h1
        · simp [h1]
        · simp [h1]
      · rw [ih]
        simp [h2, List.mem_cons]
      · push_neg at h1
        simp only [List.map_cons, List.mem_cons, ih]
        simp [h1.1, h1.2, h2]
    · split_ifs with h1 h2
      · rw [ih]
        simp only [List.map_cons, List.mem_cons]
        tauto
      · rw [ih]
        simp only [List.map_cons, List.mem_cons]
        constructor
        · rintro ⟨hne, hns, hnd, hmem⟩
          exact ⟨hne, fun hs => hns (Or.inr hs), hnd, Or.inr hmem⟩
        · rintro ⟨hne, hns, hnd, hmem⟩
          refine ⟨hne, ?_, hnd, ?_⟩
          · rintro (h | h)
            · exact hc h
            · exact hns h
          · rcases hmem with h | h
            · exact absurd h hc
            · exact h
      · simp only [List.map_cons, List.mem_cons, ih]
        constructor
        · rintro (h | ⟨hne, hns, hnd, hmem⟩)
          · exact absurd h hc
          · exact ⟨hne, fun hs => hns (Or.inr hs), hnd, Or.inr hmem⟩
        · rintro ⟨hne, hns, hnd, hmem⟩
          right
          refine ⟨hne, ?_, hnd, ?_⟩
          · rintro (h | h)
            · exact hc h
            · exact hns h
          · rcases hmem with h | h
            · exact absurd h hc
            · exact h

/-- The planned batch contains each cleaned identifier at most once. -/
theorem planAux_map_nodup (done : List String) :
    ∀ (l seen : List String), ((planAux seen done l).map limpar_cnpj).Nodup := by
  intro l
  induction l with
  | nil => intro seen; simp [planAux]
  | cons o rest ih =>
    intro seen
    rw [planAux]
    split_ifs with h1 h2
    · exact ih seen
    · exact ih _
    · simp only [List.map_cons, List.nodup_cons]
      refine ⟨?_, ih _⟩
      intro hmem
      rw [planAux_map_mem] at hmem
      exact hmem.2.1 (List.mem_cons_self _ _)

/-- Reading a list back at the indices `0, …, n-1` reproduces it. -/
theorem filterMap_get_range (l : List String) :
    (List.range l.length).filterMap (fun i => l.get? i) = l := by
  induction l with
  | nil => rfl
  | cons a as ih =>
    rw [List.length_cons, List.range_succ_eq_map, List.filterMap_cons]
    simp only [List.get?_cons_zero, List.filterMap_map]
    have hc : (fun i => (a :: as).get? i) ∘ (fun i => i + 1) = fun i => as.get? i := by
      funext i
      simp [List.get?_cons_succ]
    rw [hc, ih]

/-- C2 amended: the per-run report contains exactly one row per
distinct nonempty cleaned identifier not yet in the resume ledger (the
first raw spelling of each is the one dispatched, in first-seen input
order), and the consolidated rows appear in completion order — any
permutation of the dispatched batch — rather than being re-sorted into
original input order. -/
theorem C2_dispatch_and_order_amended (raw done : List String) :
    ((plan_to_do (uniq_inputs raw) done).map limpar_cnpj).Nodup ∧
    (∀ c, c ∈ (plan_to_do (uniq_inputs raw) done).map limpar_cnpj ↔
      (c ≠ "" ∧ c ∉ done ∧ c ∈ (uniq_inputs raw).map limpar_cnpj)) ∧
    List.Sublist (plan_to_do (uniq_inputs raw) done) (uniq_inputs raw) ∧
    (∀ ord : List Nat,
      ord.Perm (List.range (plan_to_do (uniq_inputs raw) done).length) →
      (consolidated_originals (plan_to_do (uniq_inputs raw) done) ord).Perm
        (plan_to_do (uniq_inputs raw) done)) := by
  refine ⟨planAux_map_nodup done (uniq_inputs raw) [], ?_, planAux_sublist done _ [], ?_⟩
  · intro c
    rw [plan_to_do, planAux_map_mem done (uniq_inputs raw) [] c]
    simp
  · intro ord hperm
    unfold consolidated_originals
    have h1 := hperm.filterMap (fun i => (plan_to_do (uniq_inputs raw) done).get? i)
    rw [filterMap_get_range] at h1
    exact h1

/-- C2 witness: the theorem applied to the two-spelling batch of the
counterexample. -/
theorem C2_dispatch_and_order_amended_witness :
    List.Perm [0]
      (List.range (plan_to_do
        (uniq_inputs ["11.222.333/0001-81", "11222333000181"]) []).length) ∧
    (consolidated_originals
        (plan_to_do (uniq_inputs ["11.222.333/0001-81", "11222333000181"]) [])
        [0]).Perm
      (plan_to_do (uniq_inputs ["11.222.333/0001-81", "11222333000181"]) []) :=
  ⟨by decide,
    (C2_dispatch_and_order_amended ["11.222.333/0001-81", "11222333000181"] []).2.2.2
      [0] (by decide)⟩

/-- C2 counterexample: two distinct raw spellings of the same
identifier survive exact-duplicate removal (two tokens), yet the
dispatch plan and hence the report carry a single row, not one per raw
spelling; and on a two-identifier batch the completion order `[1, 0]` —
a legitimate permutation — leaves the consolidated report in swapped
order, different from the original input order. -/
theorem C2_row_count_and_order_counterexample :
    uniq_inputs ["11.222.333/0001-81", "11222333000181"] =
      ["11.222.333/0001-81", "11222333000181"] ∧
    (uniq_inputs ["11.222.333/0001-81", "11222333000181"]).length = 2 ∧
    plan_to_do (uniq_inputs ["11.222.333/0001-81", "11222333000181"]) [] =
      ["11.222.333/0001-81"] ∧
    (consolidated_originals
      (plan_to_do (uniq_inputs ["11.222.333/0001-81", "11222333000181"]) [])
      [0]).length = 1 ∧
    List.Perm [1, 0]
      (List.range (plan_to_do
        (uniq_inputs ["11222333000181", "60701190000104"]) []).length) ∧
    consolidated_originals
        (plan_to_do (uniq_inputs ["11222333000181", "60701190000104"]) []) [1, 0] ≠
      plan_to_do (uniq_inputs ["11222333000181", "60701190000104"]) [] := by
  refine ⟨by decide, by decide, by decide, by decide, by decide, by decide⟩

/-- Folding weighted products with an accumulator equals the
accumulator plus the sum of the products. -/
theorem foldl_mul_acc (l : List (Nat × Nat)) (acc : Nat) :
    l.foldl (fun a p => a + p.1 * p.2) acc =
      acc + (l.map (fun p => p.1 * p.2)).sum := by
  induction l generalizing acc with
  | nil => simp
  | cons p ps ih =>
    rw [List.foldl_cons, List.map_cons, List.sum_cons, ih, Nat.add_assoc]

/-- Claim-side single checksum pass (written from the claim's words):
weighted sum of the digits, remainder mod 11, a remainder below 2 maps
to digit 0 and otherwise to 11 minus the remainder. -/
def dvPass (ds ws : List Nat) : Nat :=
  if ((ds.zip ws).map (fun p => p.1 * p.2)).sum % 11 < 2 then 0
  else 11 - ((ds.zip ws).map (fun p => p.1 * p.2)).sum % 11

/-- The translated `dv` coincides with the claim-side pass. -/
theorem dvNat_eq_dvPass (ds ws : List Nat) : dvNat ds ws = dvPass ds ws := by
  simp only [dvNat, dvPass, foldl_mul_acc, Nat.zero_add]

/-- Claim-side two check digits: the first pass over digits 1-12 with
weights `[5,4,3,2,9,8,7,6,5,4,3,2]`, then the second pass over digits
1-13 — the base extended with the first check digit — with weights
`[6,5,4,3,2,9,8,7,6,5,4,3,2]`. -/
def checkDigits (ds : List Nat) : List Nat :=
  [dvPass ds pesos_12, dvPass (ds ++ [dvPass ds pesos_12]) pesos_13]

/-- `checkDigits` through the translated `dv`. -/
theorem checkDigits_eq_dvNat (ds : List Nat) :
    checkDigits ds = [dvNat ds pesos_12, dvNat (ds ++ [dvNat ds pesos_12]) pesos_13] := by
  simp only [checkDigits, dvNat_eq_dvPass]

/-- An all-digit character list is recovered from its digit values. -/
theorem map_digitChar_of_digits (l : List Char) (h : ∀ c ∈ l, c.isDigit = true) :
    (l.map digitValT).map digitChar = l := by
  induction l with
  | nil => rfl
  | cons c cs ih =>
    rw [List.map_cons, List.map_cons,
      digitChar_digitValT c (h c (List.mem_cons_self c cs)),
      ih (fun x hx => h x (List.mem_cons_of_mem c hx))]

/-- C1: `cnpj_is_valid` returns `True` exactly on strings of 14 digit
characters whose digits are not all identical and whose last two digit
values equal the two check digits computed from the first twelve by the
two weighted-sum-mod-11 passes with weights
`[5,4,3,2,9,8,7,6,5,4,3,2]` and `[6,5,4,3,2,9,8,7,6,5,4,3,2]`, a
remainder below 2 mapping to 0 and otherwise to 11 minus the
remainder.  (On other inputs the function returns `False` or, for
14-character strings containing non-digits, raises — either way it
does not return `True`.) -/
theorem C1_cnpj_is_valid_iff (s : String) :
    cnpj_is_valid s = some true ↔
      (s.data.length = 14 ∧ (∀ c ∈ s.data, c.isDigit = true) ∧
        allSame s.data = false ∧
        (s.data.drop 12).map digitValT =
          checkDigits ((s.data.take 12).map digitValT)) := by
  show cnpjValidChars s.data = some true ↔ _
  by_cases h14 : s.data.length = 14
  · by_cases hsm : allSame s.data = true
    · have hv : cnpjValidChars s.data = some false := by
        unfold cnpjValidChars
        rw [if_pos (Or.inr (Or.inr hsm))]
      rw [hv]
      simp [hsm]
    · have hsm2 : allSame s.data = false := by
        cases hb : allSame s.data
        · rfl
        · exact absurd hb hsm
      have hne : s.data.isEmpty = false := by
        cases hd : s.data
        · rw [hd] at h14; cases h14
        · rfl
      have hcond : ¬(s.data.isEmpty = true ∨ s.data.length ≠ 14 ∨
          allSame s.data = true) := by
        rintro (h | h | h)
        · rw [hne] at h; cases h
        · exact h h14
        · rw [hsm2] at h; cases h
      have heq : cnpjValidChars s.data =
          (calcularDV (s.data.take 12)).map (fun dvs => s.data.drop 12 == dvs) := by
        unfold cnpjValidChars
        rw [if_neg hcond]
      by_cases hd12 : ∀ c ∈ s.data.take 12, c.isDigit = true
      · have htt : (s.data.take 12).take 12 = s.data.take 12 := by
          rw [List.take_take, Nat.min_self]
        have hdv := calcularDV_isSome (s.data.take 12) (by rw [htt]; exact hd12)
        rw [htt] at hdv
        have heq2 : cnpjValidChars s.data =
            some (s.data.drop 12 ==
              [digitChar (dvNat ((s.data.take 12).map digitValT) pesos_12),
               digitChar (dvNat (((s.data.take 12).map digitValT) ++
                 [dvNat ((s.data.take 12).map digitValT) pesos_12]) pesos_13)]) := by
          rw [heq, hdv]
          rfl
        rw [heq2]
        simp only [Option.some.injEq, beq_iff_eq]
        constructor
        · intro hdrop
          refine ⟨h14, ?_, hsm2, ?_⟩
          · intro c hc
            rw [← List.take_append_drop 12 s.data] at hc
            rcases List.mem_append.mp hc with hc | hc
            · exact hd12 c hc
            · rw [hdrop] at hc
              rcases List.mem_cons.mp hc with rfl | hc2
              · exact digitChar_isDigit _ (dvNat_lt_10 _ _)
              · rcases List.mem_cons.mp hc2 with rfl | hc3
                · exact digitChar_isDigit _ (dvNat_lt_10 _ _)
                · cases hc3
          · rw [hdrop, checkDigits_eq_dvNat]
            rw [List.map_cons, List.map_cons, List.map_nil,
              digitValT_digitChar _ (dvNat_lt_10 _ _),
              digitValT_digitChar _ (dvNat_lt_10 _ _)]
        · rintro ⟨_, hall, _, hvals⟩
          have hdd : ∀ c ∈ s.data.drop 12, c.isDigit = true := by
            intro c hc
            refine hall c ?_
            rw [← List.take_append_drop 12 s.data]
            exact List.mem_append_right _ hc
          have hrec : s.data.drop 12 = ((s.data.drop 12).map digitValT).map digitChar :=
            (map_digitChar_of_digits _ hdd).symm
          rw [hrec, hvals, checkDigits_eq_dvNat, List.map_cons, List.map_cons,
            List.map_nil]
      · have hd12n : ¬ ∀ c ∈ (s.data.take 12).take 12, c.isDigit = true := by
          rw [List.take_take, Nat.min_self]
          exact hd12
        have hnone : cnpjValidChars s.data = none := by
          rw [heq]
          unfold calcularDV
          rw [parseDigits_eq_none _ hd12n]
          rfl
        rw [hnone]
        constructor
        · intro h
          exact Option.noConfusion h
        · rintro ⟨_, hall, _, _⟩
          exact absurd (fun c hc => hall c (List.mem_of_mem_take hc)) hd12
  · have hv : cnpjValidChars s.data = some false := by
      unfold cnpjValidChars
      rw [if_pos (Or.inr (Or.inl h14))]
    rw [hv]
    constructor
    · intro h
      exact Bool.noConfusion (Option.some.inj h)
    · rintro ⟨hW, _⟩
      exact absurd hW h14

/-- C1 witness: the equivalence applied to the valid identifier
`"11222333000181"`. -/
theorem C1_cnpj_is_valid_iff_witness :
    cnpj_is_valid "11222333000181" = some true ∧
    (("11222333000181" : String).data.length = 14 ∧
      (∀ c ∈ ("11222333000181" : String).data, c.isDigit = true) ∧
      allSame ("11222333000181" : String).data = false ∧
      (("11222333000181" : String).data.drop 12).map digitValT =
        checkDigits ((("11222333000181" : String).data.take 12).map digitValT)) :=
  ⟨by decide, (C1_cnpj_is_valid_iff "11222333000181").mp (by decide)⟩
